import Mathlib

/-!
Shallow embedding of the window-abstraction core (src/src/window.rs).

The platform backend is an external collaborator (spec sections 1 and 6):
its window creation is passed in as a parameter, and its opaque data
(platform window, monitor handle, proxy data, event stream) is modelled by
structures carrying exactly the observations the core queries.  Rust
`u32` values are modelled as `Nat`, `f32` values as exact rationals, and
Rust `Result` as `Except`.
-/

namespace Winit

/-- Width and height in pixels, a pair of Rust u32 values. -/
abbrev Dims := Nat × Nat

/-- Modelled from the spec: `Event` is an external value type produced by
the backend; this core does not define its variants (spec section 3), so a
representative inductive stands in for it. -/
inductive Event
  | Awakened
  | Other (code : Nat)
deriving DecidableEq, Repr, Inhabited

/-- Modelled from the spec: `CreationError`, raised only by window
creation (permission denied, incompatible system, resource exhaustion);
its variants live outside src/, so representative constructors stand in. -/
inductive CreationError
  | OsError (msg : String)
  | NotSupported
deriving DecidableEq, Repr, Inhabited

/-- Backend monitor handle (`platform::MonitorId`), modelled by the three
observations the core queries through it (spec section 6). -/
structure PlatformMonitorId where
  name : Option String := none
  native_id : Nat := 0
  dims : Dims := (0, 0)
deriving DecidableEq, Repr, Inhabited

/-- Backend query: the number of pixels currently displayed on the monitor. -/
def PlatformMonitorId.get_dimensions (m : PlatformMonitorId) : Dims :=
  m.dims

/-- `pub struct MonitorId(platform::MonitorId)` (window.rs line 457). -/
structure MonitorId where
  inner : PlatformMonitorId
deriving DecidableEq, Repr, Inhabited

/-- `MonitorId::get_dimensions` (window.rs lines 476-479). -/
def MonitorId.get_dimensions : MonitorId → Dims
  | ⟨id⟩ => id.get_dimensions

/-- `MonitorId::get_name` (window.rs lines 462-465). -/
def MonitorId.get_name : MonitorId → Option String
  | ⟨id⟩ => id.name

/-- The window descriptor (`WindowAttributes`); the struct itself is
declared outside src/, but every field below is named and written by the
code in src/src/window.rs.  The Rust `fn(u32,u32)` resize-callback pointer
is opaque to the core (only stored and forwarded), modelled as a token. -/
structure WindowAttributes where
  dimensions : Option Dims := none
  min_dimensions : Option Dims := none
  max_dimensions : Option Dims := none
  title : String := ""
  monitor : Option PlatformMonitorId := none
  visible : Bool := true
  transparent : Bool := false
  decorations : Bool := true
  multitouch : Bool := false
  resize_callback : Option Nat := none

/-- Modelled from the spec: the default descriptor is defined outside
src/; spec section 3 fixes it as "no dimensions, visible, decorated, no
callback" (the structure defaults above). -/
def WindowAttributes.default : WindowAttributes := {}

/-- The opaque platform-specific configuration blob of the builder. -/
structure PlatformSpecific where
  blob : Nat := 0

/-- `pub struct WindowBuilder` holding the descriptor plus the
platform-specific blob. -/
structure WindowBuilder where
  window : WindowAttributes
  platform_specific : PlatformSpecific

/-- `WindowBuilder::new` (window.rs lines 17-22). -/
def WindowBuilder.new : WindowBuilder :=
  { window := WindowAttributes.default, platform_specific := {} }

/-- `WindowBuilder::with_dimensions` (window.rs lines 28-31). -/
def WindowBuilder.with_dimensions (self : WindowBuilder) (width height : Nat) :
    WindowBuilder :=
  { self with window := { self.window with dimensions := some (width, height) } }

/-- `WindowBuilder::with_min_dimensions` (window.rs lines 37-40). -/
def WindowBuilder.with_min_dimensions (self : WindowBuilder) (width height : Nat) :
    WindowBuilder :=
  { self with window := { self.window with min_dimensions := some (width, height) } }

/-- `WindowBuilder::with_max_dimensions` (window.rs lines 46-49). -/
def WindowBuilder.with_max_dimensions (self : WindowBuilder) (width height : Nat) :
    WindowBuilder :=
  { self with window := { self.window with max_dimensions := some (width, height) } }

/-- `WindowBuilder::with_title` (window.rs lines 53-56). -/
def WindowBuilder.with_title (self : WindowBuilder) (title : String) :
    WindowBuilder :=
  { self with window := { self.window with title := title } }

/-- `WindowBuilder::with_fullscreen` (window.rs lines 62-66): unwraps the
`MonitorId` newtype and records the backend monitor handle. -/
def WindowBuilder.with_fullscreen (self : WindowBuilder) (monitor : MonitorId) :
    WindowBuilder :=
  match monitor with
  | ⟨m⟩ => { self with window := { self.window with monitor := some m } }

/-- `WindowBuilder::with_visibility` (window.rs lines 70-73). -/
def WindowBuilder.with_visibility (self : WindowBuilder) (visible : Bool) :
    WindowBuilder :=
  { self with window := { self.window with visible := visible } }

/-- `WindowBuilder::with_transparency` (window.rs lines 77-80). -/
def WindowBuilder.with_transparency (self : WindowBuilder) (transparent : Bool) :
    WindowBuilder :=
  { self with window := { self.window with transparent := transparent } }

/-- `WindowBuilder::with_decorations` (window.rs lines 84-87). -/
def WindowBuilder.with_decorations (self : WindowBuilder) (decorations : Bool) :
    WindowBuilder :=
  { self with window := { self.window with decorations := decorations } }

/-- `WindowBuilder::with_multitouch` (window.rs lines 91-94). -/
def WindowBuilder.with_multitouch (self : WindowBuilder) : WindowBuilder :=
  { self with window := { self.window with multitouch := true } }

/-- `WindowBuilder::with_window_resize_callback` (window.rs lines 100-103). -/
def WindowBuilder.with_window_resize_callback (self : WindowBuilder) (cb : Nat) :
    WindowBuilder :=
  { self with window := { self.window with resize_callback := some cb } }

/-- Backend wait-events iterator (`platform::WaitEventsIterator`): the
backend's blocking event sequence (spec section 6) modelled as a stream of
per-call results with a cursor. -/
structure PlatformWaitEventsIterator where
  stream : Nat → Option Event
  pos : Nat

/-- One call to the backend waiting iterator. -/
def PlatformWaitEventsIterator.next (it : PlatformWaitEventsIterator) :
    Option Event × PlatformWaitEventsIterator :=
  (it.stream it.pos, { it with pos := it.pos + 1 })

/-- Backend window handle (`platform::Window`), modelled by the
observations the core in src/ queries or writes through it. -/
structure PlatformWindow where
  inner_size : Option Dims
  hidpi : Rat
  resize_callback : Option Nat := none
  wait_stream : Nat → Option Event := fun _ => none

/-- Backend query: client-area size in points, none if the window no
longer exists. -/
def PlatformWindow.get_inner_size (w : PlatformWindow) : Option Dims :=
  w.inner_size

/-- Backend query: hidpi factor. -/
def PlatformWindow.hidpi_factor (w : PlatformWindow) : Rat :=
  w.hidpi

/-- Backend operation: install or remove the resize callback. -/
def PlatformWindow.set_window_resize_callback (w : PlatformWindow)
    (cb : Option Nat) : PlatformWindow :=
  { w with resize_callback := cb }

/-- Backend operation: start the blocking event sequence. -/
def PlatformWindow.wait_events (w : PlatformWindow) : PlatformWaitEventsIterator :=
  { stream := w.wait_stream, pos := 0 }

/-- `pub struct Window { window: platform::Window }`. -/
structure Window where
  window : PlatformWindow

/-- The backend window-creation entry point
(`platform::Window::new(&window, &platform_specific)`), an external
collaborator passed in as a parameter. -/
abbrev BackendCreate :=
  WindowAttributes → PlatformSpecific → Except CreationError PlatformWindow

/-- The dimension-resolution steps at the start of `WindowBuilder::build`
(window.rs lines 110-118): fill the monitor dimensions when fullscreen was
requested without dimensions, then the fixed default. -/
def WindowBuilder.resolve_dimensions (self : WindowBuilder) : WindowBuilder :=
  let self1 :=
    if self.window.dimensions.isNone && self.window.monitor.isSome then
      { self with window := { self.window with
          dimensions := some self.window.monitor.get!.get_dimensions } }
    else self
  if self1.window.dimensions.isNone then
    { self1 with window := { self1.window with dimensions := some (1024, 768) } }
  else self1

/-- The rest of `WindowBuilder::build` (window.rs lines 120-128): invoke
the backend on the finalized descriptor, register the resize callback if
one was configured, wrap the handle. -/
def build_resolved (create : BackendCreate) (self : WindowBuilder) :
    Except CreationError Window :=
  match create self.window self.platform_specific with
  | .error e => .error e
  | .ok w =>
    match self.window.resize_callback with
    | some cb => .ok { window := w.set_window_resize_callback (some cb) }
    | none => .ok { window := w }

/-- `WindowBuilder::build` (window.rs lines 109-129). -/
def WindowBuilder.build (create : BackendCreate) (self : WindowBuilder) :
    Except CreationError Window :=
  build_resolved create self.resolve_dimensions

/-- `WindowBuilder::build_strict` (window.rs lines 136-138): calls
`self.build()`. -/
def WindowBuilder.build_strict (create : BackendCreate) (self : WindowBuilder) :
    Except CreationError Window :=
  self.build create

/-- `Window::new` (window.rs lines 157-160). -/
def Window.new (create : BackendCreate) : Except CreationError Window :=
  let builder := WindowBuilder.new
  builder.build create

/-- Rust `Result::unwrap`: the panic on `Err` is modelled as `none`. -/
def exceptUnwrap {α : Type} : Except CreationError α → Option α
  | .ok a => some a
  | .error _ => none

/-- `impl Default for Window` (window.rs lines 142-147):
`Window::new().unwrap()`, with the panic modelled as `none`. -/
def Window.defaultImpl (create : BackendCreate) : Option Window :=
  exceptUnwrap (Window.new create)

/-- `Window::get_inner_size` (window.rs lines 227-229). -/
def Window.get_inner_size (self : Window) : Option Dims :=
  self.window.get_inner_size

/-- `Window::get_inner_size_points` (window.rs lines 238-240). -/
def Window.get_inner_size_points (self : Window) : Option Dims :=
  self.window.get_inner_size

/-- `Window::hidpi_factor` (window.rs lines 340-342). -/
def Window.hidpi_factor (self : Window) : Rat :=
  self.window.hidpi_factor

/-- Rust `as u32` cast of an f32 value (f32 modelled as an exact
rational): truncation toward zero, saturating to the u32 range. -/
def floatToU32 (v : Rat) : Nat :=
  if v < 0 then 0 else min (Int.floor v).toNat (2 ^ 32 - 1)

/-- `Window::get_inner_size_pixels` (window.rs lines 251-256): map each
point dimension through multiplication by the hidpi factor and the
`as u32` cast. -/
def Window.get_inner_size_pixels (self : Window) : Option Dims :=
  self.window.get_inner_size.map (fun p =>
    let hidpi := self.hidpi_factor
    (floatToU32 ((p.1 : Rat) * hidpi), floatToU32 ((p.2 : Rat) * hidpi)))

/-- `pub struct WaitEventsIterator(platform::WaitEventsIterator)`
(window.rs line 406). -/
structure WaitEventsIterator where
  inner : PlatformWaitEventsIterator

/-- `Window::wait_events` (window.rs lines 293-295). -/
def Window.wait_events (self : Window) : WaitEventsIterator :=
  ⟨self.window.wait_events⟩

/-- `WaitEventsIterator::next` (window.rs lines 412-414): forwards to the
wrapped backend iterator. -/
def WaitEventsIterator.next (self : WaitEventsIterator) :
    Option Event × WaitEventsIterator :=
  match self.inner.next with
  | (e, it) => (e, ⟨it⟩)

/-- The result of the k-th (0-based) call to `next` on the waiting
iterator, threading the iterator state through the earlier calls. -/
def iterateNext : Nat → WaitEventsIterator → Option Event × WaitEventsIterator
  | 0, it => it.next
  | n + 1, it => iterateNext n (it.next).2

/-- Backend proxy data (`platform::WindowProxy`), opaque to the core. -/
structure PlatformWindowProxy where
  token : Nat
deriving DecidableEq, Repr, Inhabited

/-- `pub struct WindowProxy { proxy: platform::WindowProxy }`
(window.rs lines 363-365). -/
structure WindowProxy where
  proxy : PlatformWindowProxy
deriving DecidableEq, Repr, Inhabited

/-- `WindowProxy::get_proxy_data` (window.rs lines 378-380). -/
def WindowProxy.get_proxy_data (self : WindowProxy) : PlatformWindowProxy :=
  self.proxy

/-- `WindowProxy::create_proxy` (window.rs lines 384-386). -/
def WindowProxy.create_proxy (data : PlatformWindowProxy) : WindowProxy :=
  { proxy := data }

/-- From the spec's words only (for comparison with the code): rounding a
value to the nearest integer, halves up. -/
def specRound (v : Rat) : Nat :=
  (Int.floor (v + 1 / 2)).toNat

theorem option_get_bang_some {α : Type} [Inhabited α] (a : α) :
    (some a).get! = a := rfl

/-- C1: at the start of `build()` the dimensions field is resolved —
monitor dimensions when absent with a fullscreen monitor recorded, the
fixed (1024, 768) default when still absent — so the resolved descriptor,
which is by definition of `build` the one handed to the backend, always
has `dimensions = some _`. -/
theorem build_resolves_default_dimensions (b : WindowBuilder) :
    b.resolve_dimensions.window.dimensions =
      (match b.window.dimensions, b.window.monitor with
       | some d, _ => some d
       | none, some m => some m.get_dimensions
       | none, none => some (1024, 768)) ∧
    b.resolve_dimensions.window.dimensions.isSome = true ∧
    ∀ create : BackendCreate,
      b.build create = build_resolved create b.resolve_dimensions := by
  have h1 : b.resolve_dimensions.window.dimensions =
      (match b.window.dimensions, b.window.monitor with
       | some d, _ => some d
       | none, some m => some m.get_dimensions
       | none, none => some (1024, 768)) := by
    rcases hd : b.window.dimensions with _ | d <;>
      rcases hm : b.window.monitor with _ | m <;>
        simp [WindowBuilder.resolve_dimensions, hd, hm, option_get_bang_some]
  refine ⟨h1, ?_, fun _ => rfl⟩
  rw [h1]
  rcases b.window.dimensions with _ | d <;> rcases b.window.monitor with _ | m <;> rfl

/-- C2: explicit `with_dimensions(w,h)` survives resolution unchanged —
regardless of any recorded fullscreen monitor — and `build()` invokes the
backend on exactly the resolved descriptor; so `some (w, h)` is what the
backend receives. -/
theorem with_dimensions_precedence (b : WindowBuilder) (w h : Nat) :
    ((b.with_dimensions w h).resolve_dimensions).window.dimensions = some (w, h) ∧
    ∀ create : BackendCreate,
      (b.with_dimensions w h).build create =
        build_resolved create ((b.with_dimensions w h).resolve_dimensions) := by
  refine ⟨?_, fun _ => rfl⟩
  simp [WindowBuilder.with_dimensions, WindowBuilder.resolve_dimensions]

/-- C5: `build_strict()` returns exactly the result of `build()` on the
same builder state, for every backend. -/
theorem build_strict_eq_build (b : WindowBuilder) (create : BackendCreate) :
    b.build_strict create = b.build create := rfl

/-- C6: each configuration method rewrites exactly its own descriptor
field and leaves every other field and the platform-specific blob
unchanged (the record updates below touch nothing else); in particular
`with_fullscreen` records only the monitor and leaves dimensions alone.
The methods are total Lean functions, so they never fail. -/
theorem builder_methods_frame (b : WindowBuilder) (w h : Nat) (t : String)
    (m : MonitorId) (v tr dc : Bool) (cb : Nat) :
    b.with_dimensions w h =
      { b with window := { b.window with dimensions := some (w, h) } } ∧
    b.with_min_dimensions w h =
      { b with window := { b.window with min_dimensions := some (w, h) } } ∧
    b.with_max_dimensions w h =
      { b with window := { b.window with max_dimensions := some (w, h) } } ∧
    b.with_title t = { b with window := { b.window with title := t } } ∧
    b.with_fullscreen m =
      { b with window := { b.window with monitor := some m.inner } } ∧
    b.with_visibility v = { b with window := { b.window with visible := v } } ∧
    b.with_transparency tr =
      { b with window := { b.window with transparent := tr } } ∧
    b.with_decorations dc =
      { b with window := { b.window with decorations := dc } } ∧
    b.with_multitouch =
      { b with window := { b.window with multitouch := true } } ∧
    b.with_window_resize_callback cb =
      { b with window := { b.window with resize_callback := some cb } } ∧
    (b.with_fullscreen m).window.dimensions = b.window.dimensions := by
  rcases m with ⟨pm⟩
  exact ⟨rfl, rfl, rfl, rfl, rfl, rfl, rfl, rfl, rfl, rfl, rfl⟩

/-- C9: `get_inner_size_points()` is observationally equal to
`get_inner_size()` on every window: both forward the same backend query,
so they agree on every `some` and on `none`. -/
theorem inner_size_points_eq_inner_size (w : Window) :
    w.get_inner_size_points = w.get_inner_size := rfl

/-- C10: constructing a `WindowProxy` from raw backend proxy data and
reading it back with `get_proxy_data` is the identity round trip. -/
theorem proxy_roundtrip (d : PlatformWindowProxy) :
    (WindowProxy.create_proxy d).get_proxy_data = d := rfl

/-- A concrete window whose client area is 1×1 points at hidpi factor
3/2: the code's truncating cast and nearest-integer rounding disagree. -/
def wTrunc : Window :=
  { window := { inner_size := some (1, 1), hidpi := 3 / 2 } }

/-- C3 counterexample: at inner size (1, 1) and hidpi factor 3/2 the code
returns `some (1, 1)` (truncation), while rounding each dimension to the
nearest integer would give `some (2, 2)` — so `get_inner_size_pixels` is
not the rounded product. -/
theorem inner_size_pixels_not_rounded :
    wTrunc.get_inner_size = some (1, 1) ∧
    wTrunc.hidpi_factor = 3 / 2 ∧
    specRound ((1 : Rat) * (3 / 2)) = 2 ∧
    wTrunc.get_inner_size_pixels = some (1, 1) ∧
    wTrunc.get_inner_size_pixels ≠
      some (specRound ((1 : Rat) * (3 / 2)), specRound ((1 : Rat) * (3 / 2))) := by
  have hf1 : (⌊(3 / 2 : ℚ)⌋ : ℤ) = 1 := by rw [Int.floor_eq_iff] ; norm_num
  have hf2 : (⌊(2 : ℚ)⌋ : ℤ) = 2 := by rw [Int.floor_eq_iff] ; norm_num
  refine ⟨rfl, rfl, ?_, ?_, ?_⟩
  · norm_num [specRound, hf2] ; decide
  · norm_num [wTrunc, Window.get_inner_size_pixels, PlatformWindow.get_inner_size,
      Window.hidpi_factor, PlatformWindow.hidpi_factor, floatToU32, hf1]
  · norm_num [wTrunc, Window.get_inner_size_pixels, PlatformWindow.get_inner_size,
      Window.hidpi_factor, PlatformWindow.hidpi_factor, floatToU32, specRound,
      hf1, hf2] ; decide

/-- C3 amended: `get_inner_size_pixels()` returns `none` iff
`get_inner_size()` does, and on `some (x, y)` returns each dimension
multiplied by the hidpi factor and truncated (the Rust `as u32` cast),
not rounded to the nearest integer. -/
theorem inner_size_pixels_truncates_none_iff (w : Window) :
    (w.get_inner_size_pixels = none ↔ w.get_inner_size = none) ∧
    ∀ x y, w.get_inner_size = some (x, y) →
      w.get_inner_size_pixels =
        some (floatToU32 ((x : Rat) * w.hidpi_factor),
              floatToU32 ((y : Rat) * w.hidpi_factor)) := by
  constructor
  · simp [Window.get_inner_size_pixels, Window.get_inner_size,
      PlatformWindow.get_inner_size]
  · intro x y hxy
    have h : w.window.inner_size = some (x, y) := hxy
    simp [Window.get_inner_size_pixels, PlatformWindow.get_inner_size, h,
      Window.hidpi_factor, PlatformWindow.hidpi_factor]

/-- A second concrete window, client area 2×3 points at hidpi 5/4. -/
def wTruncB : Window :=
  { window := { inner_size := some (2, 3), hidpi := 5 / 4 } }

/-- C3 amended, witnessed at inner size (2, 3) and hidpi 5/4. -/
theorem inner_size_pixels_truncates_none_iff_witness :
    wTruncB.get_inner_size_pixels =
      some (floatToU32 ((2 : Rat) * wTruncB.hidpi_factor),
            floatToU32 ((3 : Rat) * wTruncB.hidpi_factor)) :=
  (inner_size_pixels_truncates_none_iff wTruncB).2 2 3 rfl

/-- C4: on `some (x, y)` from `get_inner_size()`, `get_inner_size_pixels()`
returns each dimension multiplied by `hidpi_factor()` and truncated toward
zero to an integer (the `as u32` cast), and a `none` result propagates. -/
theorem inner_size_pixels_spec (w : Window) :
    (∀ x y, w.get_inner_size = some (x, y) →
      w.get_inner_size_pixels =
        some (floatToU32 ((x : Rat) * w.hidpi_factor),
              floatToU32 ((y : Rat) * w.hidpi_factor))) ∧
    (w.get_inner_size = none → w.get_inner_size_pixels = none) := by
  constructor
  · intro x y hxy
    have h : w.window.inner_size = some (x, y) := hxy
    simp [Window.get_inner_size_pixels, PlatformWindow.get_inner_size, h,
      Window.hidpi_factor, PlatformWindow.hidpi_factor]
  · intro hnone
    have h : w.window.inner_size = none := hnone
    simp [Window.get_inner_size_pixels, PlatformWindow.get_inner_size, h]

/-- A third concrete window, client area 3×1 points at hidpi factor 2. -/
def wTruncC : Window :=
  { window := { inner_size := some (3, 1), hidpi := 2 } }

/-- C4 witnessed at inner size (3, 1) and hidpi 2. -/
theorem inner_size_pixels_spec_witness :
    wTruncC.get_inner_size_pixels =
      some (floatToU32 ((3 : Rat) * wTruncC.hidpi_factor),
            floatToU32 ((1 : Rat) * wTruncC.hidpi_factor)) :=
  (inner_size_pixels_spec wTruncC).1 3 1 rfl

/-- C7: `Window::new()` is exactly `WindowBuilder::new().build()`, the
`Default` implementation is that result unwrapped, and an error from
`build()` makes the `Default` path panic (modelled as `none`) rather than
surface the error. -/
theorem window_new_and_default (create : BackendCreate) :
    Window.new create = WindowBuilder.new.build create ∧
    Window.defaultImpl create = exceptUnwrap (WindowBuilder.new.build create) ∧
    (∀ w, WindowBuilder.new.build create = .ok w →
      Window.defaultImpl create = some w) ∧
    (∀ e, WindowBuilder.new.build create = .error e →
      Window.defaultImpl create = none) := by
  refine ⟨rfl, rfl, ?_, ?_⟩
  · intro w hw
    simp [Window.defaultImpl, Window.new, hw, exceptUnwrap]
  · intro e he
    simp [Window.defaultImpl, Window.new, he, exceptUnwrap]

/-- A backend that always refuses to create a window. -/
def createFail : BackendCreate :=
  fun _ _ => .error (CreationError.OsError "permission denied")

/-- C7 witnessed at a backend whose creation fails: the `Default` path
panics (modelled as `none`). -/
theorem window_new_and_default_witness :
    Window.defaultImpl createFail = none :=
  (window_new_and_default createFail).2.2.2
    (CreationError.OsError "permission denied") rfl

theorem iterateNext_fst (k : Nat) :
    ∀ it : WaitEventsIterator,
      (iterateNext k it).1 = it.inner.stream (it.inner.pos + k) := by
  induction k with
  | zero =>
    intro it
    rfl
  | succ n ih =>
    intro it
    have h2 : (iterateNext (n + 1) it).1 =
        it.inner.stream (it.inner.pos + 1 + n) := by
      show (iterateNext n (it.next).2).1 = _
      rw [ih]
      rfl
    rw [h2]
    congr 1
    omega

/-- C8: under the backend contract that its waiting sequence always
yields an event, every call (the k-th, for any k) to `next` on the
iterator returned by `wait_events()` returns `some`, so the iterator
never terminates the sequence itself. -/
theorem wait_events_next_never_none (w : Window)
    (hbackend : ∀ n, (w.window.wait_stream n).isSome = true) :
    ∀ k, ((iterateNext k w.wait_events).1).isSome = true := by
  intro k
  rw [iterateNext_fst]
  exact hbackend _

/-- A concrete window whose backend waiting sequence always yields. -/
def waitWindowEx : Window :=
  { window := { inner_size := some (640, 480), hidpi := 1,
                wait_stream := fun n => some (Event.Other n) } }

/-- C8 witnessed: the third call to `next` on the waiting iterator of a
window with an always-yielding backend returns `some`. -/
theorem wait_events_next_never_none_witness :
    ((iterateNext 2 waitWindowEx.wait_events).1).isSome = true :=
  wait_events_next_never_none waitWindowEx (fun _ => rfl) 2

end Winit
